import Mathlib

/-!
Verification of the aidale runtime core: a shallow embedding of the
plugin execution engine, request orchestrator, JSON output strategy and
retry layer, together with proofs of the specified properties.

Sources embedded:
- aidale-core/src/types.rs                (data model)
- aidale-core/src/error.rs                (AiError, is_retryable)
- aidale-core/src/plugin.rs               (Plugin, PluginEngine, hook drivers)
- aidale-core/src/runtime/executor.rs     (generate_text / generate_object)
- aidale-core/src/strategy/json_output.rs (JsonModeStrategy)
- aidale-layer/src/retry.rs               (RetryLayer, execute_with_retry)

Embedding conventions: async hook calls become functions returning
`Except AiError _`; the backend connector (an external collaborator) is a
function parameter; `futures::future::try_join_all` over the per-plugin
hook futures is embedded as a deterministic fail-fast join over the list
of hook outcomes; `f64` arithmetic in the retry delay is embedded as exact
rational arithmetic; `serde_json::Value` is embedded by a small `Json`
type and `serde_json::from_str` (an external library function) by a
function parameter.
-/

namespace Aidale

/-- Message role (types.rs `Role`). -/
inductive Role where
  | System
  | User
  | Assistant
  | Tool
deriving DecidableEq

/-- Embedding of `serde_json::Value` (external library type): JSON values
with integer-modelled numbers. -/
inductive Json where
  | null
  | bool (b : Bool)
  | num (n : Int)
  | str (s : String)
  | arr (elems : List Json)
  | obj (fields : List (String × Json))

/-- Message content part (types.rs `ContentPart`). -/
inductive ContentPart where
  | Text (text : String)
  | Image (url : String)
  | ToolCall (id : String) (name : String) (arguments : Json)
  | ToolResult (id : String) (result : Json)

/-- Message in a conversation (types.rs `Message`). -/
structure Message where
  role : Role
  content : List ContentPart
  name : Option String

/-- Tool definition (types.rs `Tool`). -/
structure Tool where
  name : String
  description : String
  parameters : Json

/-- Text generation parameters (types.rs `TextParams`). Sampling knobs are
embedded as exact rationals; `extra` (a `HashMap`) as an association list. -/
structure TextParams where
  messages : List Message
  max_tokens : Option Nat
  temperature : Option Rat
  top_p : Option Rat
  frequency_penalty : Option Rat
  presence_penalty : Option Rat
  stop : Option (List String)
  tools : Option (List Tool)
  extra : List (String × Json)

/-- Usage statistics (types.rs `Usage`). -/
structure Usage where
  prompt_tokens : Nat
  completion_tokens : Nat
  total_tokens : Nat

/-- Finish reason (types.rs `FinishReason`). -/
inductive FinishReason where
  | Stop
  | Length
  | ToolCalls
  | ContentFilter
  | Other (s : String)

/-- Text generation result (types.rs `TextResult`). -/
structure TextResult where
  content : String
  finish_reason : FinishReason
  usage : Usage
  model : String
  tool_calls : Option (List ContentPart)

/-- Streaming text chunk (types.rs `TextChunk`). -/
structure TextChunk where
  delta : String
  finish_reason : Option FinishReason
  usage : Option Usage

/-- Object generation parameters (types.rs `ObjectParams`). -/
structure ObjectParams where
  messages : List Message
  schema : Json
  max_tokens : Option Nat
  temperature : Option Rat

/-- Object generation result (types.rs `ObjectResult`). -/
structure ObjectResult where
  object : Json
  usage : Usage
  model : String

/-- Provider information (types.rs `ProviderInfo`). -/
structure ProviderInfo where
  id : String
  name : String

/-- Request context for plugins (types.rs `RequestContext`). The request
id is generated per call (a UUID in the source); the embedding threads it
in explicitly. -/
structure RequestContext where
  request_id : String
  provider_id : String
  model : String
  metadata : List (String × String)

/-- types.rs `RequestContext::new`: the source generates `request_id` as a
fresh UUID; the embedding receives it explicitly. -/
def RequestContext.new (request_id provider_id model : String) : RequestContext where
  request_id := request_id
  provider_id := provider_id
  model := model
  metadata := []

/-- Response format for chat completions (types.rs `ResponseFormat`). -/
inductive ResponseFormat where
  | Text
  | JsonObject
  | JsonSchema (name : String) (schema : Json) (strict : Bool)

/-- Chat completion request (types.rs `ChatCompletionRequest`). -/
structure ChatCompletionRequest where
  model : String
  messages : List Message
  temperature : Option Rat
  max_tokens : Option Nat
  top_p : Option Rat
  frequency_penalty : Option Rat
  presence_penalty : Option Rat
  stop : Option (List String)
  tools : Option (List Tool)
  response_format : Option ResponseFormat
  stream : Option Bool
  extra : List (String × Json)

/-- Single choice in a chat completion response (types.rs `Choice`). -/
structure Choice where
  index : Nat
  message : Message
  finish_reason : FinishReason

/-- Chat completion response (types.rs `ChatCompletionResponse`). -/
structure ChatCompletionResponse where
  id : String
  model : String
  choices : List Choice
  usage : Usage
  created : Option Nat

/-- The error type (error.rs `AiError`). Wrapped foreign error values
(`reqwest::Error`, `serde_json::Error`) are embedded by their message. -/
inductive AiError where
  | Provider (msg : String)
  | Network (msg : String)
  | Serialization (msg : String)
  | Authentication (msg : String)
  | RateLimit (msg : String)
  | InvalidRequest (msg : String)
  | ModelNotFound (msg : String)
  | Timeout (msg : String)
  | Plugin (plugin : String) (message : String)
  | Layer (layer : String) (message : String)
  | Configuration (msg : String)
  | Stream (msg : String)
  | Unsupported (msg : String)
  | Other (msg : String)

/-- error.rs `AiError::is_retryable`: true exactly for `Network`,
`Timeout` and `RateLimit`. -/
def AiError.is_retryable : AiError → Bool
  | .Network _ => true
  | .Timeout _ => true
  | .RateLimit _ => true
  | _ => false

/-! ## Plugin contract and engine (plugin.rs) -/

/-- Plugin execution phase (plugin.rs `PluginPhase`). -/
inductive PluginPhase where
  | Pre
  | Normal
  | Post
deriving DecidableEq

/-- A text stream (provider.rs `TextStream`), embedded as the list of
produced chunk outcomes. -/
def TextStreamM : Type := List (Except AiError TextChunk)

/-- The plugin trait (plugin.rs `Plugin`): a name, a phase, and the nine
hooks, each embedded as a pure function returning its outcome. -/
structure Plugin where
  name : String
  enforce : PluginPhase
  resolve_model : String → RequestContext → Except AiError (Option String)
  load_template : String → RequestContext → Except AiError (Option (List Message))
  transform_params : TextParams → RequestContext → Except AiError TextParams
  transform_result : TextResult → RequestContext → Except AiError TextResult
  on_request_start : RequestContext → Except AiError Unit
  on_request_end : RequestContext → TextResult → Except AiError Unit
  on_error : AiError → RequestContext → Except AiError Unit
  transform_stream : TextStreamM → TextStreamM

/-- The sort key of plugin.rs `PluginEngine::new`: Pre = 0, Normal = 1,
Post = 2. -/
def phaseKey : PluginPhase → Nat
  | .Pre => 0
  | .Normal => 1
  | .Post => 2

/-- The comparison used to sort plugins by phase. -/
def pluginLE (a b : Plugin) : Bool :=
  phaseKey a.enforce ≤ phaseKey b.enforce

/-- Plugin execution engine (plugin.rs `PluginEngine`): the stored,
phase-sorted plugin list. -/
structure PluginEngine where
  plugins : List Plugin

/-- plugin.rs `PluginEngine::new`: sort the plugins by phase with a stable
sort (Rust `sort_by_key` is stable; embedded as the stable `mergeSort`). -/
def PluginEngine.new (plugins : List Plugin) : PluginEngine :=
  { plugins := plugins.mergeSort pluginLE }

/-- Loop body of plugin.rs `PluginEngine::resolve_model`: first plugin
returning `Some` wins; fall back to the original model id. -/
def resolveModelGo (model_id : String) (ctx : RequestContext) :
    List Plugin → Except AiError String
  | [] => .ok model_id
  | p :: rest =>
    match p.resolve_model model_id ctx with
    | .error e => .error e
    | .ok (some resolved) => .ok resolved
    | .ok none => resolveModelGo model_id ctx rest

/-- plugin.rs `PluginEngine::resolve_model`. -/
def PluginEngine.resolve_model (engine : PluginEngine) (model_id : String)
    (ctx : RequestContext) : Except AiError String :=
  resolveModelGo model_id ctx engine.plugins

/-- Loop body of plugin.rs `PluginEngine::load_template`: first plugin
returning `Some` wins; fall back to `None`. -/
def loadTemplateGo (template_name : String) (ctx : RequestContext) :
    List Plugin → Except AiError (Option (List Message))
  | [] => .ok none
  | p :: rest =>
    match p.load_template template_name ctx with
    | .error e => .error e
    | .ok (some messages) => .ok (some messages)
    | .ok none => loadTemplateGo template_name ctx rest

/-- plugin.rs `PluginEngine::load_template`. -/
def PluginEngine.load_template (engine : PluginEngine) (template_name : String)
    (ctx : RequestContext) : Except AiError (Option (List Message)) :=
  loadTemplateGo template_name ctx engine.plugins

/-- Loop body of plugin.rs `PluginEngine::transform_params`: thread the
value through each plugin; `?` aborts on the first error. -/
def transformParamsGo (ctx : RequestContext) :
    List Plugin → TextParams → Except AiError TextParams
  | [], params => .ok params
  | p :: rest, params =>
    match p.transform_params params ctx with
    | .error e => .error e
    | .ok params' => transformParamsGo ctx rest params'

/-- plugin.rs `PluginEngine::transform_params`. -/
def PluginEngine.transform_params (engine : PluginEngine) (params : TextParams)
    (ctx : RequestContext) : Except AiError TextParams :=
  transformParamsGo ctx engine.plugins params

/-- Loop body of plugin.rs `PluginEngine::transform_result`. -/
def transformResultGo (ctx : RequestContext) :
    List Plugin → TextResult → Except AiError TextResult
  | [], result => .ok result
  | p :: rest, result =>
    match p.transform_result result ctx with
    | .error e => .error e
    | .ok result' => transformResultGo ctx rest result'

/-- plugin.rs `PluginEngine::transform_result`. -/
def PluginEngine.transform_result (engine : PluginEngine) (result : TextResult)
    (ctx : RequestContext) : Except AiError TextResult :=
  transformResultGo ctx engine.plugins result

/-- Embedding of `futures::future::try_join_all` over the per-plugin hook
futures: a deterministic fail-fast join — the first failing outcome (in
list order) is returned and later siblings do not influence the result. -/
def tryJoinAllUnit : List (Except AiError Unit) → Except AiError Unit
  | [] => .ok ()
  | .error e :: _ => .error e
  | .ok _ :: rest => tryJoinAllUnit rest

/-- plugin.rs `PluginEngine::on_request_start`. -/
def PluginEngine.on_request_start (engine : PluginEngine)
    (ctx : RequestContext) : Except AiError Unit :=
  tryJoinAllUnit (engine.plugins.map fun p => p.on_request_start ctx)

/-- plugin.rs `PluginEngine::on_request_end`. -/
def PluginEngine.on_request_end (engine : PluginEngine) (ctx : RequestContext)
    (result : TextResult) : Except AiError Unit :=
  tryJoinAllUnit (engine.plugins.map fun p => p.on_request_end ctx result)

/-- plugin.rs `PluginEngine::on_error`. -/
def PluginEngine.on_error (engine : PluginEngine) (error : AiError)
    (ctx : RequestContext) : Except AiError Unit :=
  tryJoinAllUnit (engine.plugins.map fun p => p.on_error error ctx)

/-- plugin.rs `PluginEngine::apply_stream_transforms`: fold the stream
through the stream transform of each plugin, in stored order. -/
def PluginEngine.apply_stream_transforms (engine : PluginEngine)
    (stream : TextStreamM) : TextStreamM :=
  engine.plugins.foldl (fun stream p => p.transform_stream stream) stream

/-! ## JSON output strategy (strategy/json_output.rs) -/

/-! Embedding of `serde_json::to_string_pretty` (external library
function): a deterministic serializer of `Json` values. The claims under
verification depend only on where the rendered schema is placed, not on
the exact rendering, so indentation is not reproduced. -/

mutual

def Json.toStringPretty : Json → String
  | .null => "null"
  | .bool b => cond b "true" "false"
  | .num n => toString n
  | .str s => "\"" ++ s ++ "\""
  | .arr xs => "[" ++ jsonArrBody xs ++ "]"
  | .obj kvs => "\x7b" ++ jsonObjBody kvs ++ "\x7d"

def jsonArrBody : List Json → String
  | [] => ""
  | [x] => Json.toStringPretty x
  | x :: y :: xs => Json.toStringPretty x ++ ", " ++ jsonArrBody (y :: xs)

def jsonObjBody : List (String × Json) → String
  | [] => ""
  | [kv] => "\"" ++ kv.1 ++ "\": " ++ Json.toStringPretty kv.2
  | kv :: kv' :: kvs =>
    "\"" ++ kv.1 ++ "\": " ++ Json.toStringPretty kv.2 ++ ", " ++ jsonObjBody (kv' :: kvs)

end

/-- json_output.rs `JsonModeStrategy`: prompt-injection strategy for
providers that only support basic JSON object mode. -/
structure JsonModeStrategy where
  use_system_message : Bool

/-- json_output.rs `JsonModeStrategy::build_json_instruction`. -/
def build_json_instruction (schema : Json) : Except AiError String :=
  .ok ("You must respond with valid JSON that matches this schema:\n```json\n"
    ++ Json.toStringPretty schema
    ++ "\n```\n\nIMPORTANT:\n1. Only return the JSON object, nothing else\n2. Ensure all required fields are present\n3. Follow the schema structure exactly\n4. Use the correct data types for each field")

/-- The `req.messages.iter_mut().rev().find(|m| m.role == Role::User)`
branch of json_output.rs `JsonModeStrategy::apply`: push the instruction
text (prefixed by a blank line) onto the content of the most recent user
message; `none` when no user message exists. -/
def appendToLastUser (instruction : String) : List Message → Option (List Message)
  | [] => none
  | m :: rest =>
    match appendToLastUser instruction rest with
    | some rest' => some (m :: rest')
    | none =>
      if m.role = Role.User then
        some ({ m with
          content := m.content ++ [ContentPart.Text ("\n\n" ++ instruction)] } :: rest)
      else
        none

/-- json_output.rs `JsonModeStrategy::apply`: force `JsonObject` response
format and inject the schema instruction as a leading system message or
into the most recent user message (creating one if absent). -/
def JsonModeStrategy.apply (strat : JsonModeStrategy)
    (req : ChatCompletionRequest) (schema : Json) :
    Except AiError ChatCompletionRequest :=
  let req := { req with response_format := some ResponseFormat.JsonObject }
  match build_json_instruction schema with
  | .error e => .error e
  | .ok instruction =>
    if strat.use_system_message then
      .ok { req with messages :=
        { role := Role.System
          content := [ContentPart.Text instruction]
          name := none } :: req.messages }
    else
      match appendToLastUser instruction req.messages with
      | some messages => .ok { req with messages := messages }
      | none =>
        .ok { req with messages := req.messages ++
          [{ role := Role.User
             content := [ContentPart.Text instruction]
             name := none }] }

/-! ## Request orchestrator (runtime/executor.rs) -/

/-- executor.rs `RuntimeExecutor`: the backend connector (an external
collaborator) is embedded as its one-shot completion function together
with its metadata; the boxed `dyn JsonOutputStrategy` as its `apply`
function. -/
structure RuntimeExecutor where
  provider_info : ProviderInfo
  provider : ChatCompletionRequest → Except AiError ChatCompletionResponse
  plugin_engine : PluginEngine
  json_strategy : ChatCompletionRequest → Json → Except AiError ChatCompletionRequest

/-- The `filter_map`/`join` in executor.rs: concatenation of the textual
content parts of a message, non-text parts skipped. -/
def textContent (parts : List ContentPart) : String :=
  String.join (parts.filterMap fun part =>
    match part with
    | ContentPart.Text text => some text
    | _ => none)

/-- The `ChatCompletionRequest` literal built in executor.rs
`generate_text`: streaming forced off, response format forced to text. -/
def buildChatRequest (resolved_model : String) (p : TextParams) :
    ChatCompletionRequest where
  model := resolved_model
  messages := p.messages
  temperature := p.temperature
  max_tokens := p.max_tokens
  top_p := p.top_p
  frequency_penalty := p.frequency_penalty
  presence_penalty := p.presence_penalty
  stop := p.stop
  tools := p.tools
  response_format := some ResponseFormat.Text
  stream := some false
  extra := p.extra

/-- The `TextResult` literal built in executor.rs `generate_text` from the
first response choice. -/
def choiceToTextResult (first_choice : Choice)
    (response : ChatCompletionResponse) : TextResult where
  content := textContent first_choice.message.content
  finish_reason := first_choice.finish_reason
  usage := response.usage
  model := response.model
  tool_calls := none

/-- executor.rs `RuntimeExecutor::generate_text`. The per-call UUID is
threaded in as `request_id`. -/
def RuntimeExecutor.generate_text (ex : RuntimeExecutor)
    (request_id : String) (model : String) (params : TextParams) :
    Except AiError TextResult :=
  let ctx := RequestContext.new request_id ex.provider_info.id model
  match ex.plugin_engine.resolve_model model ctx with
  | .error e => .error e
  | .ok resolved_model =>
    match ex.plugin_engine.transform_params params ctx with
    | .error e => .error e
    | .ok transformed_params =>
      match ex.plugin_engine.on_request_start ctx with
      | .error e => .error e
      | .ok _ =>
        match ex.provider (buildChatRequest resolved_model transformed_params) with
        | .ok response =>
          match response.choices.head? with
          | none => .error (AiError.Provider "No choices in response")
          | some first_choice =>
            match ex.plugin_engine.transform_result
                (choiceToTextResult first_choice response) ctx with
            | .error e => .error e
            | .ok result =>
              match ex.plugin_engine.on_request_end ctx result with
              | .error e => .error e
              | .ok _ => .ok result
        | .error err =>
          let _ := ex.plugin_engine.on_error err ctx
          .error err

/-- The `ChatCompletionRequest` literal built in executor.rs
`generate_object`: response format left unset for the strategy to fill. -/
def buildObjectRequest (model : String) (p : ObjectParams) :
    ChatCompletionRequest where
  model := model
  messages := p.messages
  temperature := p.temperature
  max_tokens := p.max_tokens
  top_p := none
  frequency_penalty := none
  presence_penalty := none
  stop := none
  tools := none
  response_format := none
  stream := some false
  extra := []

/-- executor.rs `RuntimeExecutor::generate_object`. The JSON parser
(`serde_json::from_str`, an external library function) is a parameter;
its error is wrapped as a `Serialization` error by the `?` conversion. -/
def RuntimeExecutor.generate_object (ex : RuntimeExecutor)
    (parse_json : String → Except String Json) (model : String)
    (params : ObjectParams) : Except AiError ObjectResult :=
  match ex.json_strategy (buildObjectRequest model params) params.schema with
  | .error e => .error e
  | .ok chat_req =>
    match ex.provider chat_req with
    | .error e => .error e
    | .ok response =>
      match response.choices.head? with
      | none => .error (AiError.Provider "No choices in response")
      | some first_choice =>
        match parse_json (textContent first_choice.message.content) with
        | .error e => .error (AiError.Serialization e)
        | .ok object =>
          .ok { object := object
                usage := response.usage
                model := response.model }

/-! ## Retry layer (aidale-layer/src/retry.rs) -/

/-- retry.rs `RetryLayer` configuration: delays in milliseconds
(`Duration::as_millis`), the `f64` backoff multiplier embedded as an
exact rational. -/
structure RetryLayer where
  max_retries : Nat
  initial_delay : Nat
  max_delay : Nat
  backoff_multiplier : Rat

/-- retry.rs `RetryLayer::new` defaults: 3 retries, 100 ms initial delay,
10 s max delay, multiplier 2.0. -/
def RetryLayer.new : RetryLayer where
  max_retries := 3
  initial_delay := 100
  max_delay := 10000
  backoff_multiplier := 2

/-- retry.rs `RetryLayer::calculate_delay`:
`initial_delay.as_millis() as f64 * multiplier.powi(attempt)`, truncated
to integer milliseconds (`as u64`, which is `max 0 ∘ floor` on these
values), capped by `max_delay`. -/
def RetryLayer.calculate_delay (config : RetryLayer) (attempt : Nat) : Nat :=
  let delay_ms : Rat := (config.initial_delay : Rat) * config.backoff_multiplier ^ attempt
  min (Int.toNat ⌊delay_ms⌋) config.max_delay

/-- Loop of retry.rs `RetryProvider::execute_with_retry`, with the
operation (a fresh future per call) embedded as a function of the attempt
number. The sleep is a timing effect with no bearing on the returned
value and is not represented. -/
def retryLoop (operation : Nat → Except AiError α) (max_retries : Nat) :
    Nat → Except AiError α
  | attempt =>
    match operation attempt with
    | .ok result => .ok result
    | .error e =>
      if h : e.is_retryable = false ∨ max_retries ≤ attempt then
        .error e
      else
        retryLoop operation max_retries (attempt + 1)
termination_by attempt => max_retries - attempt
decreasing_by push_neg at h; omega

/-- retry.rs `RetryProvider::execute_with_retry`: attempts start at 0. -/
def execute_with_retry (config : RetryLayer)
    (operation : Nat → Except AiError α) : Except AiError α :=
  retryLoop operation config.max_retries 0

/-! ## Concrete fixtures used by the witness theorems -/

/-- A plugin holding the documented default hook bodies of the trait
(plugin.rs `Plugin` default methods): pass-through everywhere. -/
def defaultPlugin (name : String) (phase : PluginPhase) : Plugin where
  name := name
  enforce := phase
  resolve_model := fun _ _ => .ok none
  load_template := fun _ _ => .ok none
  transform_params := fun params _ => .ok params
  transform_result := fun result _ => .ok result
  on_request_start := fun _ => .ok ()
  on_request_end := fun _ _ => .ok ()
  on_error := fun _ _ => .ok ()
  transform_stream := fun stream => stream

/-- A one-part user message. -/
def msgUser : Message where
  role := Role.User
  content := [ContentPart.Text "hi"]
  name := none

/-- A request context fixture. -/
def ctxW : RequestContext where
  request_id := "r1"
  provider_id := "prov"
  model := "gpt"
  metadata := []

/-- Minimal text parameters holding one user message. -/
def paramsW : TextParams where
  messages := [msgUser]
  max_tokens := none
  temperature := none
  top_p := none
  frequency_penalty := none
  presence_penalty := none
  stop := none
  tools := none
  extra := []

/-- A usage fixture. -/
def usageW : Usage where
  prompt_tokens := 1
  completion_tokens := 2
  total_tokens := 3

/-- A response choice whose textual parts concatenate to "hello" around a
non-text part. -/
def choiceW : Choice where
  index := 0
  message :=
    { role := Role.Assistant
      content := [ContentPart.Text "hel", ContentPart.Image "img",
        ContentPart.Text "lo"]
      name := none }
  finish_reason := FinishReason.Stop

/-- A one-choice provider response fixture. -/
def respW : ChatCompletionResponse where
  id := "resp-1"
  model := "gpt-echo"
  choices := [choiceW]
  usage := usageW
  created := none

/-- A plugin whose `on_error` hook fails. -/
def plugOnErrorFail : Plugin :=
  { defaultPlugin "E" PluginPhase.Normal with
    on_error := fun _ _ => .error (AiError.Plugin "E" "hook failed") }

/-- An executor over a stub connector returning `respW`, with no plugins. -/
def exTextW : RuntimeExecutor where
  provider_info := { id := "prov", name := "Prov" }
  provider := fun _ => .ok respW
  plugin_engine := PluginEngine.new []
  json_strategy := fun req _ => .ok req

/-- An executor over a stub connector that always fails with a timeout,
carrying a plugin whose `on_error` hook itself fails. -/
def exErrW : RuntimeExecutor where
  provider_info := { id := "prov", name := "Prov" }
  provider := fun _ => .error (AiError.Timeout "connect")
  plugin_engine := PluginEngine.new [plugOnErrorFail]
  json_strategy := fun req _ => .ok req

/-- A small schema fixture. -/
def schemaW : Json := Json.obj [("name", Json.str "string")]

/-- The instruction rendered from `schemaW`. -/
def instructionW : String :=
  match build_json_instruction schemaW with
  | .ok s => s
  | .error _ => ""

/-- A one-user-message chat request fixture. -/
def chatReqW : ChatCompletionRequest where
  model := "m"
  messages := [msgUser]
  temperature := none
  max_tokens := none
  top_p := none
  frequency_penalty := none
  presence_penalty := none
  stop := none
  tools := none
  response_format := none
  stream := none
  extra := []

/-- The same request with only a system message, no user message. -/
def chatReqNoUserW : ChatCompletionRequest :=
  { chatReqW with messages :=
      [{ role := Role.System, content := [ContentPart.Text "sys"], name := none }] }

/-- Expected output of the system-placement strategy on `chatReqW`. -/
def outTrueW : ChatCompletionRequest :=
  { chatReqW with
    response_format := some ResponseFormat.JsonObject,
    messages :=
      { role := Role.System,
        content := [ContentPart.Text instructionW],
        name := none } :: chatReqW.messages }

/-- Expected output of the user-append strategy on `chatReqW`. -/
def outFalseW : ChatCompletionRequest :=
  { chatReqW with
    response_format := some ResponseFormat.JsonObject,
    messages :=
      [{ msgUser with
         content := msgUser.content ++ [ContentPart.Text ("\n\n" ++ instructionW)] }] }

/-- Expected output of the user-append strategy on `chatReqNoUserW`. -/
def outNoUserW : ChatCompletionRequest :=
  { chatReqNoUserW with
    response_format := some ResponseFormat.JsonObject,
    messages :=
      chatReqNoUserW.messages ++
        [{ role := Role.User, content := [ContentPart.Text instructionW],
           name := none }] }

/-- Object-generation parameters fixture. -/
def objParamsW : ObjectParams where
  messages := [msgUser]
  schema := schemaW
  max_tokens := none
  temperature := none

/-- A JSON parser stub that always succeeds. -/
def parseOkW : String → Except String Json := fun _ => .ok (Json.str "h")

/-- A JSON parser stub that always fails. -/
def parseFailW : String → Except String Json := fun _ => .error "nope"

/-- `exTextW` with a different plugin engine but the same connector and
strategy. -/
def exObj2W : RuntimeExecutor :=
  { exTextW with plugin_engine := PluginEngine.new [plugOnErrorFail] }

/-! ## Helper lemmas about the retry loop -/

theorem retryLoop_ok {α : Type} {operation : Nat → Except AiError α}
    {max_retries attempt : Nat} {v : α} (h : operation attempt = .ok v) :
    retryLoop operation max_retries attempt = .ok v := by
  rw [retryLoop]
  simp [h]

theorem retryLoop_stop {α : Type} {operation : Nat → Except AiError α}
    {max_retries attempt : Nat} {e : AiError}
    (h : operation attempt = .error e)
    (hstop : e.is_retryable = false ∨ max_retries ≤ attempt) :
    retryLoop operation max_retries attempt = .error e := by
  rw [retryLoop]
  simp only [h]
  rw [dif_pos hstop]

theorem retryLoop_next {α : Type} {operation : Nat → Except AiError α}
    {max_retries attempt : Nat} {e : AiError}
    (h : operation attempt = .error e)
    (hr : e.is_retryable = true) (hlt : attempt < max_retries) :
    retryLoop operation max_retries attempt =
      retryLoop operation max_retries (attempt + 1) := by
  conv_lhs => rw [retryLoop]
  simp only [h]
  rw [dif_neg]
  push_neg
  exact ⟨by simp [hr], by omega⟩

theorem retryLoop_exhaust {α : Type} {operation : Nat → Except AiError α}
    {max_retries : Nat} {errs : Nat → AiError} :
    ∀ (n attempt : Nat), max_retries - attempt = n → attempt ≤ max_retries →
    (∀ i, attempt ≤ i → i ≤ max_retries →
      operation i = .error (errs i) ∧ (errs i).is_retryable = true) →
    retryLoop operation max_retries attempt = .error (errs max_retries) := by
  intro n
  induction n with
  | zero =>
    intro attempt h1 h2 h3
    have ha : attempt = max_retries := by omega
    subst ha
    exact retryLoop_stop (h3 attempt le_rfl le_rfl).1 (Or.inr le_rfl)
  | succ n ih =>
    intro attempt h1 h2 h3
    have hlt : attempt < max_retries := by omega
    have hstep := h3 attempt le_rfl (by omega)
    rw [retryLoop_next hstep.1 hstep.2 hlt]
    exact ih (attempt + 1) (by omega) (by omega)
      (fun i hi1 hi2 => h3 i (by omega) hi2)

theorem retryLoop_succeeds {α : Type} {operation : Nat → Except AiError α}
    {max_retries k : Nat} {v : α} :
    ∀ (n attempt : Nat), k - attempt = n → attempt ≤ k → k ≤ max_retries →
    (∀ i, attempt ≤ i → i < k →
      ∃ e, operation i = .error e ∧ e.is_retryable = true) →
    operation k = .ok v →
    retryLoop operation max_retries attempt = .ok v := by
  intro n
  induction n with
  | zero =>
    intro attempt h1 h2 h3 h4 h5
    have ha : attempt = k := by omega
    subst ha
    exact retryLoop_ok h5
  | succ n ih =>
    intro attempt h1 h2 h3 h4 h5
    have hlt : attempt < k := by omega
    obtain ⟨e, he, hr⟩ := h4 attempt le_rfl hlt
    rw [retryLoop_next he hr (by omega)]
    exact ih (attempt + 1) (by omega) (by omega) h3
      (fun i hi1 hi2 => h4 i (by omega) hi2) h5

/-! ## Claim theorems -/

/-- C2: the retry layer retries only Network, Timeout and Rate-limit
errors while the attempt count is below `max_retries`; any other error is
returned immediately with zero retries; a retryable error whose budget is
exhausted is returned unchanged; and a success after a run of retryable
failures within budget is returned. -/
theorem retry_classification_c2 {α : Type} :
    (∀ e : AiError, e.is_retryable = true ↔
      ((∃ s, e = AiError.Network s) ∨ (∃ s, e = AiError.Timeout s) ∨
        (∃ s, e = AiError.RateLimit s)))
    ∧ (∀ (config : RetryLayer) (operation : Nat → Except AiError α) (e : AiError),
        operation 0 = .error e → e.is_retryable = false →
        execute_with_retry config operation = .error e)
    ∧ (∀ (config : RetryLayer) (operation : Nat → Except AiError α)
        (errs : Nat → AiError),
        (∀ i, i ≤ config.max_retries →
          operation i = .error (errs i) ∧ (errs i).is_retryable = true) →
        execute_with_retry config operation = .error (errs config.max_retries))
    ∧ (∀ (config : RetryLayer) (operation : Nat → Except AiError α)
        (k : Nat) (v : α),
        k ≤ config.max_retries →
        (∀ i, i < k → ∃ e, operation i = .error e ∧ e.is_retryable = true) →
        operation k = .ok v →
        execute_with_retry config operation = .ok v) := by
  refine ⟨?_, ?_, ?_, ?_⟩
  · intro e
    cases e <;> simp [AiError.is_retryable]
  · intro config operation e h he
    exact retryLoop_stop h (Or.inl he)
  · intro config operation errs h
    exact retryLoop_exhaust (config.max_retries - 0) 0 rfl (Nat.zero_le _)
      (fun i _ hi => h i hi)
  · intro config operation k v hk h hok
    exact retryLoop_succeeds (k - 0) 0 rfl (Nat.zero_le _) hk
      (fun i _ hi => h i hi) hok

/-- Witness for C2 at concrete inputs: an operation failing twice with
Timeout then succeeding, under the default budget of 3, returns the
success; a non-retryable error is returned at once; all-retryable
failures exhaust the budget and return the last error. -/
theorem retry_classification_c2_witness :
    execute_with_retry RetryLayer.new
      (fun i => if i < 2 then Except.error (AiError.Timeout "t") else .ok 7)
      = Except.ok 7
    ∧ execute_with_retry RetryLayer.new
        (fun _ => (Except.error (AiError.Provider "boom") : Except AiError Nat))
      = Except.error (AiError.Provider "boom")
    ∧ execute_with_retry RetryLayer.new
        (fun i => (Except.error (AiError.RateLimit (toString i)) : Except AiError Nat))
      = Except.error (AiError.RateLimit "3") := by
  refine ⟨?_, ?_, ?_⟩
  · exact retry_classification_c2.2.2.2 RetryLayer.new _ 2 7 (by decide)
      (fun i hi => ⟨AiError.Timeout "t", by simp [hi], rfl⟩) (by simp)
  · exact retry_classification_c2.2.1 RetryLayer.new _ _ rfl rfl
  · exact retry_classification_c2.2.2.1 RetryLayer.new _
      (fun i => AiError.RateLimit (toString i)) (fun i _ => ⟨rfl, rfl⟩)

/-- C9: the backoff delay is `min(initial_delay * factor^n, max_delay)`;
with the default configuration (100 ms initial delay, factor 2.0, 10 s
cap) the schedule is 100, 200, 400, ... doubling up to attempt 6 and
capped at exactly 10000 from attempt 7, the first attempt whose uncapped
value exceeds the cap. -/
theorem retry_delay_c9 :
    (∀ n, RetryLayer.new.calculate_delay n = min (100 * 2 ^ n) 10000)
    ∧ (∀ n, n ≤ 6 → RetryLayer.new.calculate_delay n = 100 * 2 ^ n)
    ∧ (∀ n, 7 ≤ n → RetryLayer.new.calculate_delay n = 10000)
    ∧ 100 * 2 ^ 6 < 10000 ∧ 10000 < 100 * 2 ^ 7 := by
  have key : ∀ n, RetryLayer.new.calculate_delay n = min (100 * 2 ^ n) 10000 := by
    intro n
    unfold RetryLayer.calculate_delay RetryLayer.new
    have hcast : ((100 : Nat) : Rat) * (2 : Rat) ^ n = ((100 * 2 ^ n : Nat) : Rat) := by
      push_cast
      ring
    simp only [hcast, Int.floor_natCast, Int.toNat_natCast]
  refine ⟨key, ?_, ?_, by norm_num, by norm_num⟩
  · intro n hn
    have hpow : 2 ^ n ≤ 2 ^ 6 := Nat.pow_le_pow_right (by norm_num) hn
    rw [key n]
    omega
  · intro n hn
    have hpow : 2 ^ 7 ≤ 2 ^ n := Nat.pow_le_pow_right (by norm_num) hn
    rw [key n]
    omega

/-- Witness for C9 at concrete attempts: attempt 3 gives 800 ms, attempt 6
gives 6400 ms (last uncapped), attempt 7 gives the 10000 ms cap. -/
theorem retry_delay_c9_witness :
    RetryLayer.new.calculate_delay 3 = 800
    ∧ RetryLayer.new.calculate_delay 6 = 6400
    ∧ RetryLayer.new.calculate_delay 7 = 10000 := by
  refine ⟨?_, ?_, ?_⟩
  · rw [retry_delay_c9.2.1 3 (by norm_num)]; norm_num
  · rw [retry_delay_c9.2.1 6 (by norm_num)]; norm_num
  · exact retry_delay_c9.2.2.1 7 le_rfl

theorem pluginLE_trans : ∀ a b c : Plugin, pluginLE a b → pluginLE b c → pluginLE a c := by
  intro a b c hab hbc
  simp only [pluginLE, decide_eq_true_eq] at *
  omega

theorem pluginLE_total : ∀ a b : Plugin, pluginLE a b || pluginLE b a := by
  intro a b
  simp only [pluginLE, Bool.or_eq_true, decide_eq_true_eq]
  omega

/-- C4: the stored plugin list of `PluginEngine::new` is sorted by phase
(Pre before Normal before Post), the sort is stable (plugins of each
phase keep their registration order), the stored list is a permutation of
the registered list, and every hook driver iterates exactly the stored
list. -/
theorem plugin_order_c4 (ps : List Plugin) :
    ((PluginEngine.new ps).plugins).Pairwise
      (fun a b => phaseKey a.enforce ≤ phaseKey b.enforce)
    ∧ (∀ k : Nat,
        ((PluginEngine.new ps).plugins).filter (fun p => phaseKey p.enforce = k)
          = ps.filter (fun p => phaseKey p.enforce = k))
    ∧ ((PluginEngine.new ps).plugins).Perm ps
    ∧ (∀ model_id ctx, (PluginEngine.new ps).resolve_model model_id ctx
        = resolveModelGo model_id ctx (PluginEngine.new ps).plugins)
    ∧ (∀ template_name ctx, (PluginEngine.new ps).load_template template_name ctx
        = loadTemplateGo template_name ctx (PluginEngine.new ps).plugins)
    ∧ (∀ params ctx, (PluginEngine.new ps).transform_params params ctx
        = transformParamsGo ctx (PluginEngine.new ps).plugins params)
    ∧ (∀ result ctx, (PluginEngine.new ps).transform_result result ctx
        = transformResultGo ctx (PluginEngine.new ps).plugins result)
    ∧ (∀ ctx, (PluginEngine.new ps).on_request_start ctx
        = tryJoinAllUnit ((PluginEngine.new ps).plugins.map fun p => p.on_request_start ctx))
    ∧ (∀ ctx result, (PluginEngine.new ps).on_request_end ctx result
        = tryJoinAllUnit ((PluginEngine.new ps).plugins.map fun p => p.on_request_end ctx result))
    ∧ (∀ err ctx, (PluginEngine.new ps).on_error err ctx
        = tryJoinAllUnit ((PluginEngine.new ps).plugins.map fun p => p.on_error err ctx))
    ∧ (∀ stream, (PluginEngine.new ps).apply_stream_transforms stream
        = (PluginEngine.new ps).plugins.foldl (fun stream p => p.transform_stream stream) stream) := by
  refine ⟨?_, ?_, ?_, fun _ _ => rfl, fun _ _ => rfl, fun _ _ => rfl,
    fun _ _ => rfl, fun _ => rfl, fun _ _ => rfl, fun _ _ => rfl, fun _ => rfl⟩
  · have h := List.sorted_mergeSort pluginLE_trans pluginLE_total ps
    exact h.imp (fun hab => by simpa [pluginLE] using hab)
  · intro k
    show (ps.mergeSort pluginLE).filter (fun p => phaseKey p.enforce = k)
      = ps.filter (fun p => phaseKey p.enforce = k)
    have hpw : (ps.filter (fun p => phaseKey p.enforce = k)).Pairwise
        (fun a b => pluginLE a b) := by
      apply List.pairwise_of_forall_mem_list
      intro a ha b hb
      simp only [List.mem_filter, decide_eq_true_eq] at ha hb
      simp only [pluginLE, decide_eq_true_eq]
      omega
    have hsub := List.sublist_mergeSort pluginLE_trans pluginLE_total hpw
      (List.filter_sublist ps)
    have hsub2 := hsub.filter (fun p => phaseKey p.enforce = k)
    rw [List.filter_filter] at hsub2
    simp only [Bool.and_self] at hsub2
    have hlen : ((ps.mergeSort pluginLE).filter (fun p => phaseKey p.enforce = k)).length
        = (ps.filter (fun p => phaseKey p.enforce = k)).length :=
      ((List.mergeSort_perm ps pluginLE).filter _).length_eq
    exact (hsub2.eq_of_length hlen.symm).symm
  · exact List.mergeSort_perm ps pluginLE

/-- Witness for C4 on a concrete three-plugin registration
[Post "a", Pre "b", Normal "c"]: the Pre-phase plugin list and the
Post-phase plugin list are preserved per phase. -/
theorem plugin_order_c4_witness :
    ((PluginEngine.new
        [defaultPlugin "a" PluginPhase.Post, defaultPlugin "b" PluginPhase.Pre,
          defaultPlugin "c" PluginPhase.Normal]).plugins).filter
      (fun p => phaseKey p.enforce = 0)
      = [defaultPlugin "b" PluginPhase.Pre]
    ∧ ((PluginEngine.new
        [defaultPlugin "a" PluginPhase.Post, defaultPlugin "b" PluginPhase.Pre,
          defaultPlugin "c" PluginPhase.Normal]).plugins).Perm
      [defaultPlugin "a" PluginPhase.Post, defaultPlugin "b" PluginPhase.Pre,
        defaultPlugin "c" PluginPhase.Normal] := by
  constructor
  · rw [(plugin_order_c4 _).2.1 0]
    simp [defaultPlugin, phaseKey]
  · exact (plugin_order_c4 _).2.2.1

/-- C5: the sequential transform chains (`transform_params`,
`transform_result`) thread the value through the plugins in stored order
— running a chain over `ps ++ qs` feeds the output of `ps` into `qs` —
and a failing plugin aborts the chain immediately with its error
returned as-is, the plugins after it never influencing the outcome. -/
theorem transform_chain_c5 :
    (∀ (ps qs : List Plugin) (ctx : RequestContext) (v : TextParams),
      transformParamsGo ctx (ps ++ qs) v =
        match transformParamsGo ctx ps v with
        | .error e => .error e
        | .ok v' => transformParamsGo ctx qs v')
    ∧ (∀ (ps qs : List Plugin) (p : Plugin) (ctx : RequestContext)
        (v v' : TextParams) (e : AiError),
      transformParamsGo ctx ps v = .ok v' →
      p.transform_params v' ctx = .error e →
      transformParamsGo ctx (ps ++ p :: qs) v = .error e)
    ∧ (∀ (engine : PluginEngine) (params : TextParams) (ctx : RequestContext),
      engine.transform_params params ctx = transformParamsGo ctx engine.plugins params)
    ∧ (∀ (ps qs : List Plugin) (ctx : RequestContext) (v : TextResult),
      transformResultGo ctx (ps ++ qs) v =
        match transformResultGo ctx ps v with
        | .error e => .error e
        | .ok v' => transformResultGo ctx qs v')
    ∧ (∀ (ps qs : List Plugin) (p : Plugin) (ctx : RequestContext)
        (v v' : TextResult) (e : AiError),
      transformResultGo ctx ps v = .ok v' →
      p.transform_result v' ctx = .error e →
      transformResultGo ctx (ps ++ p :: qs) v = .error e)
    ∧ (∀ (engine : PluginEngine) (result : TextResult) (ctx : RequestContext),
      engine.transform_result result ctx = transformResultGo ctx engine.plugins result) := by
  have hparams : ∀ (ps qs : List Plugin) (ctx : RequestContext) (v : TextParams),
      transformParamsGo ctx (ps ++ qs) v =
        match transformParamsGo ctx ps v with
        | .error e => .error e
        | .ok v' => transformParamsGo ctx qs v' := by
    intro ps qs ctx
    induction ps with
    | nil => intro v; rfl
    | cons p rest ih =>
      intro v
      cases h : p.transform_params v ctx with
      | error e => simp [transformParamsGo, h]
      | ok v' => simp [transformParamsGo, h, ih v']
  have hresult : ∀ (ps qs : List Plugin) (ctx : RequestContext) (v : TextResult),
      transformResultGo ctx (ps ++ qs) v =
        match transformResultGo ctx ps v with
        | .error e => .error e
        | .ok v' => transformResultGo ctx qs v' := by
    intro ps qs ctx
    induction ps with
    | nil => intro v; rfl
    | cons p rest ih =>
      intro v
      cases h : p.transform_result v ctx with
      | error e => simp [transformResultGo, h]
      | ok v' => simp [transformResultGo, h, ih v']
  refine ⟨hparams, ?_, fun _ _ _ => rfl, hresult, ?_, fun _ _ _ => rfl⟩
  · intro ps qs p ctx v v' e hok herr
    rw [hparams ps (p :: qs) ctx v, hok]
    simp [transformParamsGo, herr]
  · intro ps qs p ctx v v' e hok herr
    rw [hresult ps (p :: qs) ctx v, hok]
    simp [transformResultGo, herr]

/-- Witness for C5 at a concrete chain [A sets max_tokens, B fails, C]:
the chain returns the plugin error of B, with the transformation of A applied
before the failure and C never reached. -/
theorem transform_chain_c5_witness :
    transformParamsGo ctxW
      [{ defaultPlugin "A" PluginPhase.Normal with
          transform_params := fun params _ => .ok { params with max_tokens := some 5 } },
        { defaultPlugin "B" PluginPhase.Normal with
          transform_params := fun _ _ => .error (AiError.Plugin "B" "boom") },
        defaultPlugin "C" PluginPhase.Normal]
      paramsW = .error (AiError.Plugin "B" "boom") := by
  have h := transform_chain_c5.2.1
    [{ defaultPlugin "A" PluginPhase.Normal with
        transform_params := fun params _ => .ok { params with max_tokens := some 5 } }]
    [defaultPlugin "C" PluginPhase.Normal]
    { defaultPlugin "B" PluginPhase.Normal with
        transform_params := fun _ _ => .error (AiError.Plugin "B" "boom") }
    ctxW paramsW { paramsW with max_tokens := some 5 }
    (AiError.Plugin "B" "boom") rfl rfl
  simpa using h

/-- C6: the first-match hooks return the value of the first plugin in
engine order that produces one, the plugins after it never influencing
the outcome; with no producing plugin, `resolve_model` falls back to the
original model id and `load_template` to no template. -/
theorem first_match_c6 :
    (∀ (l1 l2 : List Plugin) (p : Plugin) (model_id : String)
        (ctx : RequestContext) (v : String),
      (∀ q ∈ l1, q.resolve_model model_id ctx = .ok none) →
      p.resolve_model model_id ctx = .ok (some v) →
      PluginEngine.resolve_model ⟨l1 ++ p :: l2⟩ model_id ctx = .ok v)
    ∧ (∀ (plugins : List Plugin) (model_id : String) (ctx : RequestContext),
      (∀ q ∈ plugins, q.resolve_model model_id ctx = .ok none) →
      PluginEngine.resolve_model ⟨plugins⟩ model_id ctx = .ok model_id)
    ∧ (∀ (l1 l2 : List Plugin) (p : Plugin) (template_name : String)
        (ctx : RequestContext) (msgs : List Message),
      (∀ q ∈ l1, q.load_template template_name ctx = .ok none) →
      p.load_template template_name ctx = .ok (some msgs) →
      PluginEngine.load_template ⟨l1 ++ p :: l2⟩ template_name ctx = .ok (some msgs))
    ∧ (∀ (plugins : List Plugin) (template_name : String) (ctx : RequestContext),
      (∀ q ∈ plugins, q.load_template template_name ctx = .ok none) →
      PluginEngine.load_template ⟨plugins⟩ template_name ctx = .ok none) := by
  refine ⟨?_, ?_, ?_, ?_⟩
  · intro l1 l2 p model_id ctx v hnone hp
    induction l1 with
    | nil =>
      show resolveModelGo model_id ctx (p :: l2) = .ok v
      simp [resolveModelGo, hp]
    | cons q rest ih =>
      show resolveModelGo model_id ctx (q :: (rest ++ p :: l2)) = .ok v
      rw [resolveModelGo, hnone q (List.mem_cons_self q rest)]
      exact ih (fun q' hq' => hnone q' (List.mem_cons_of_mem q hq'))
  · intro plugins model_id ctx hnone
    induction plugins with
    | nil => rfl
    | cons q rest ih =>
      show resolveModelGo model_id ctx (q :: rest) = .ok model_id
      rw [resolveModelGo, hnone q (List.mem_cons_self q rest)]
      exact ih (fun q' hq' => hnone q' (List.mem_cons_of_mem q hq'))
  · intro l1 l2 p template_name ctx msgs hnone hp
    induction l1 with
    | nil =>
      show loadTemplateGo template_name ctx (p :: l2) = .ok (some msgs)
      simp [loadTemplateGo, hp]
    | cons q rest ih =>
      show loadTemplateGo template_name ctx (q :: (rest ++ p :: l2)) = .ok (some msgs)
      rw [loadTemplateGo, hnone q (List.mem_cons_self q rest)]
      exact ih (fun q' hq' => hnone q' (List.mem_cons_of_mem q hq'))
  · intro plugins template_name ctx hnone
    induction plugins with
    | nil => rfl
    | cons q rest ih =>
      show loadTemplateGo template_name ctx (q :: rest) = .ok none
      rw [loadTemplateGo, hnone q (List.mem_cons_self q rest)]
      exact ih (fun q' hq' => hnone q' (List.mem_cons_of_mem q hq'))

/-- Witness for C6 on concrete plugin lists: with plugins producing
(none, some "model-x", some "model-y") in order, resolution returns
"model-x"; with only non-producing plugins the original id "gpt" is kept
and no template is loaded. -/
theorem first_match_c6_witness :
    PluginEngine.resolve_model
      ⟨[defaultPlugin "N" PluginPhase.Normal,
        { defaultPlugin "X" PluginPhase.Normal with
            resolve_model := fun _ _ => .ok (some "model-x") },
        { defaultPlugin "Y" PluginPhase.Normal with
            resolve_model := fun _ _ => .ok (some "model-y") }]⟩ "gpt" ctxW
      = .ok "model-x"
    ∧ PluginEngine.resolve_model ⟨[defaultPlugin "N" PluginPhase.Normal]⟩ "gpt" ctxW
      = .ok "gpt"
    ∧ PluginEngine.load_template
      ⟨[defaultPlugin "N" PluginPhase.Normal,
        { defaultPlugin "T" PluginPhase.Normal with
            load_template := fun _ _ => .ok (some [msgUser]) }]⟩ "tmpl" ctxW
      = .ok (some [msgUser])
    ∧ PluginEngine.load_template ⟨[defaultPlugin "N" PluginPhase.Normal]⟩ "tmpl" ctxW
      = .ok none := by
  refine ⟨?_, ?_, ?_, ?_⟩
  · exact first_match_c6.1 [defaultPlugin "N" PluginPhase.Normal]
      [{ defaultPlugin "Y" PluginPhase.Normal with
          resolve_model := fun _ _ => .ok (some "model-y") }]
      { defaultPlugin "X" PluginPhase.Normal with
          resolve_model := fun _ _ => .ok (some "model-x") }
      "gpt" ctxW "model-x"
      (by intro q hq; simp only [List.mem_singleton] at hq; subst hq; rfl) rfl
  · exact first_match_c6.2.1 [defaultPlugin "N" PluginPhase.Normal] "gpt" ctxW
      (by intro q hq; simp only [List.mem_singleton] at hq; subst hq; rfl)
  · exact first_match_c6.2.2.1 [defaultPlugin "N" PluginPhase.Normal] []
      { defaultPlugin "T" PluginPhase.Normal with
          load_template := fun _ _ => .ok (some [msgUser]) }
      "tmpl" ctxW [msgUser]
      (by intro q hq; simp only [List.mem_singleton] at hq; subst hq; rfl) rfl
  · exact first_match_c6.2.2.2 [defaultPlugin "N" PluginPhase.Normal] "tmpl" ctxW
      (by intro q hq; simp only [List.mem_singleton] at hq; subst hq; rfl)

/-- C10: the `on_error` driver joins the per-plugin hook outcomes with
fail-fast semantics — when the hooks before `p` succeed and the hook of
`p` fails, the driver returns that failure, and the outcomes of the
plugins after `p` never influence the driver result (they are
abandoned). -/
theorem on_error_fail_fast_c10 :
    (∀ (l1 l2 : List Plugin) (p : Plugin) (err : AiError)
        (ctx : RequestContext) (e : AiError),
      (∀ q ∈ l1, q.on_error err ctx = .ok ()) →
      p.on_error err ctx = .error e →
      PluginEngine.on_error ⟨l1 ++ p :: l2⟩ err ctx = .error e)
    ∧ (∀ (l1 l2 l2' : List Plugin) (p : Plugin) (err : AiError)
        (ctx : RequestContext) (e : AiError),
      (∀ q ∈ l1, q.on_error err ctx = .ok ()) →
      p.on_error err ctx = .error e →
      PluginEngine.on_error ⟨l1 ++ p :: l2⟩ err ctx
        = PluginEngine.on_error ⟨l1 ++ p :: l2'⟩ err ctx) := by
  have key : ∀ (l1 l2 : List Plugin) (p : Plugin) (err : AiError)
      (ctx : RequestContext) (e : AiError),
      (∀ q ∈ l1, q.on_error err ctx = .ok ()) →
      p.on_error err ctx = .error e →
      PluginEngine.on_error ⟨l1 ++ p :: l2⟩ err ctx = .error e := by
    intro l1 l2 p err ctx e hok herr
    induction l1 with
    | nil =>
      show tryJoinAllUnit ((p :: l2).map fun q => q.on_error err ctx) = .error e
      simp [tryJoinAllUnit, herr]
    | cons q rest ih =>
      show tryJoinAllUnit ((q :: (rest ++ p :: l2)).map fun q' => q'.on_error err ctx)
        = .error e
      rw [List.map_cons, hok q (List.mem_cons_self q rest)]
      simp only [tryJoinAllUnit]
      exact ih (fun q' hq' => hok q' (List.mem_cons_of_mem q hq'))
  refine ⟨key, ?_⟩
  · intro l1 l2 l2' p err ctx e hok herr
    rw [key l1 l2 p err ctx e hok herr, key l1 l2' p err ctx e hok herr]

/-- Witness for C10 on a concrete plugin list [ok, failing "E", failing
"Z"]: the driver returns the failure of plugin E, and the result does not
change when the plugins after E are replaced. -/
theorem on_error_fail_fast_c10_witness :
    PluginEngine.on_error
      ⟨[defaultPlugin "N" PluginPhase.Normal,
        { defaultPlugin "E" PluginPhase.Normal with
            on_error := fun _ _ => .error (AiError.Plugin "E" "hook failed") },
        { defaultPlugin "Z" PluginPhase.Normal with
            on_error := fun _ _ => .error (AiError.Plugin "Z" "other") }]⟩
      (AiError.Timeout "t") ctxW = .error (AiError.Plugin "E" "hook failed")
    ∧ PluginEngine.on_error
      ⟨[defaultPlugin "N" PluginPhase.Normal,
        { defaultPlugin "E" PluginPhase.Normal with
            on_error := fun _ _ => .error (AiError.Plugin "E" "hook failed") },
        { defaultPlugin "Z" PluginPhase.Normal with
            on_error := fun _ _ => .error (AiError.Plugin "Z" "other") }]⟩
      (AiError.Timeout "t") ctxW
      = PluginEngine.on_error
        ⟨[defaultPlugin "N" PluginPhase.Normal,
          { defaultPlugin "E" PluginPhase.Normal with
              on_error := fun _ _ => .error (AiError.Plugin "E" "hook failed") }]⟩
        (AiError.Timeout "t") ctxW := by
  constructor
  · exact on_error_fail_fast_c10.1 [defaultPlugin "N" PluginPhase.Normal]
      [{ defaultPlugin "Z" PluginPhase.Normal with
          on_error := fun _ _ => .error (AiError.Plugin "Z" "other") }]
      { defaultPlugin "E" PluginPhase.Normal with
          on_error := fun _ _ => .error (AiError.Plugin "E" "hook failed") }
      (AiError.Timeout "t") ctxW (AiError.Plugin "E" "hook failed")
      (by intro q hq; simp only [List.mem_singleton] at hq; subst hq; rfl) rfl
  · exact on_error_fail_fast_c10.2 [defaultPlugin "N" PluginPhase.Normal]
      [{ defaultPlugin "Z" PluginPhase.Normal with
          on_error := fun _ _ => .error (AiError.Plugin "Z" "other") }] []
      { defaultPlugin "E" PluginPhase.Normal with
          on_error := fun _ _ => .error (AiError.Plugin "E" "hook failed") }
      (AiError.Timeout "t") ctxW (AiError.Plugin "E" "hook failed")
      (by intro q hq; simp only [List.mem_singleton] at hq; subst hq; rfl) rfl

/-- C1: once the plugin phases before dispatch succeed, `generate_text`
sends the connector a request with streaming forced off and response
format forced to text; on a response with no choice it fails with a
provider error; on a response with a first choice it builds a result
whose content concatenates the textual parts of the first choice (non-text
parts skipped), runs it through the `transform_result` chain, fires
`on_request_end`, and returns the transformed result. -/
theorem generate_text_success_c1
    (ex : RuntimeExecutor) (request_id model : String) (params : TextParams)
    (resolved_model : String) (transformed_params : TextParams)
    (ctx : RequestContext)
    (hctx : ctx = RequestContext.new request_id ex.provider_info.id model)
    (h1 : ex.plugin_engine.resolve_model model ctx = .ok resolved_model)
    (h2 : ex.plugin_engine.transform_params params ctx = .ok transformed_params)
    (h3 : ex.plugin_engine.on_request_start ctx = .ok ()) :
    ((buildChatRequest resolved_model transformed_params).stream = some false
      ∧ (buildChatRequest resolved_model transformed_params).response_format
        = some ResponseFormat.Text)
    ∧ (∀ response,
        ex.provider (buildChatRequest resolved_model transformed_params) = .ok response →
        (response.choices = [] →
          ex.generate_text request_id model params
            = .error (AiError.Provider "No choices in response"))
        ∧ (∀ first_choice rest, response.choices = first_choice :: rest →
            (choiceToTextResult first_choice response).content
              = textContent first_choice.message.content
            ∧ ex.generate_text request_id model params
              = match ex.plugin_engine.transform_result
                  (choiceToTextResult first_choice response) ctx with
                | .error e => .error e
                | .ok result =>
                  match ex.plugin_engine.on_request_end ctx result with
                  | .error e => .error e
                  | .ok _ => .ok result)) := by
  subst hctx
  refine ⟨⟨rfl, rfl⟩, ?_⟩
  intro response hresp
  constructor
  · intro hchoices
    simp only [RuntimeExecutor.generate_text, h1, h2, h3, hresp, hchoices,
      List.head?]
  · intro first_choice rest hchoices
    refine ⟨rfl, ?_⟩
    simp only [RuntimeExecutor.generate_text, h1, h2, h3, hresp, hchoices,
      List.head?]

/-- Witness for C1: a stub connector returning one choice whose textual
parts are "hel" and "lo" around an image part yields, with no plugins,
the result "hello" carrying the usage and model of the stub. -/
theorem generate_text_success_c1_witness :
    exTextW.generate_text "r1" "gpt" paramsW
      = .ok
          { content := "hello",
            finish_reason := FinishReason.Stop,
            usage := usageW,
            model := "gpt-echo",
            tool_calls := none } := by
  have h := generate_text_success_c1 exTextW "r1" "gpt" paramsW "gpt" paramsW
    (RequestContext.new "r1" "prov" "gpt")
    rfl
    (by simp [exTextW, PluginEngine.new, PluginEngine.resolve_model, resolveModelGo])
    (by simp [exTextW, PluginEngine.new, PluginEngine.transform_params, transformParamsGo])
    (by simp [exTextW, PluginEngine.new, PluginEngine.on_request_start, tryJoinAllUnit])
  have h2 := ((h.2 respW rfl).2 choiceW [] rfl).2
  rw [h2]
  simp only [exTextW, PluginEngine.new]
  rw [List.mergeSort_nil]
  show Except.ok (choiceToTextResult choiceW respW) = _
  rfl

/-- C3: when the connector fails, `generate_text` returns exactly the
original connector error, whatever the `on_error` hooks do — their
outcome (including any failure) is discarded. -/
theorem generate_text_error_c3
    (ex : RuntimeExecutor) (request_id model : String) (params : TextParams)
    (resolved_model : String) (transformed_params : TextParams)
    (ctx : RequestContext) (err : AiError)
    (hctx : ctx = RequestContext.new request_id ex.provider_info.id model)
    (h1 : ex.plugin_engine.resolve_model model ctx = .ok resolved_model)
    (h2 : ex.plugin_engine.transform_params params ctx = .ok transformed_params)
    (h3 : ex.plugin_engine.on_request_start ctx = .ok ())
    (herr : ex.provider (buildChatRequest resolved_model transformed_params)
      = .error err) :
    ex.generate_text request_id model params = .error err := by
  subst hctx
  simp only [RuntimeExecutor.generate_text, h1, h2, h3, herr]

/-- Witness for C3: a connector failing with a timeout, combined with a
plugin whose `on_error` hook itself fails, still yields exactly the
original timeout error. -/
theorem generate_text_error_c3_witness :
    exErrW.generate_text "r1" "gpt" paramsW = .error (AiError.Timeout "connect") := by
  exact generate_text_error_c3 exErrW "r1" "gpt" paramsW "gpt" paramsW
    (RequestContext.new "r1" "prov" "gpt")
    (AiError.Timeout "connect")
    rfl
    (by simp [exErrW, plugOnErrorFail, defaultPlugin, PluginEngine.new,
      PluginEngine.resolve_model, resolveModelGo])
    (by simp [exErrW, plugOnErrorFail, defaultPlugin, PluginEngine.new,
      PluginEngine.transform_params, transformParamsGo])
    (by simp [exErrW, plugOnErrorFail, defaultPlugin, PluginEngine.new,
      PluginEngine.on_request_start, tryJoinAllUnit])
    rfl

theorem appendToLastUser_none (instruction : String) :
    ∀ {msgs : List Message}, (∀ m ∈ msgs, m.role ≠ Role.User) →
    appendToLastUser instruction msgs = none := by
  intro msgs
  induction msgs with
  | nil => intro _; rfl
  | cons m rest ih =>
    intro h
    have hrest := ih (fun x hx => h x (List.mem_cons_of_mem m hx))
    have hm := h m (List.mem_cons_self m rest)
    simp [appendToLastUser, hrest, hm]

theorem appendToLastUser_some (instruction : String) :
    ∀ {msgs : List Message}, (∃ m ∈ msgs, m.role = Role.User) →
    ∃ l1 u l2, msgs = l1 ++ u :: l2 ∧ u.role = Role.User
      ∧ (∀ x ∈ l2, x.role ≠ Role.User)
      ∧ appendToLastUser instruction msgs = some (l1 ++
          { u with content := u.content ++
            [ContentPart.Text ("\n\n" ++ instruction)] } :: l2) := by
  intro msgs
  induction msgs with
  | nil => intro h; simp at h
  | cons m rest ih =>
    intro h
    by_cases hrest : ∃ x ∈ rest, x.role = Role.User
    · obtain ⟨l1, u, l2, heq, hu, hnone, happ⟩ := ih hrest
      refine ⟨m :: l1, u, l2, by simp [heq], hu, hnone, ?_⟩
      simp [appendToLastUser, happ]
    · push_neg at hrest
      have hnone := appendToLastUser_none instruction hrest
      have hm : m.role = Role.User := by
        obtain ⟨x, hx, hxu⟩ := h
        rcases List.mem_cons.mp hx with h' | h'
        · subst h'; exact hxu
        · exact absurd hxu (hrest x h')
      refine ⟨[], m, rest, rfl, hm, hrest, ?_⟩
      simp [appendToLastUser, hnone, hm]

/-- C7: the prompt-injection strategy forces the generic JSON-object
response format and: with system placement, inserts a new system message
carrying the instruction at index 0 (message count grows by one); with
placement disabled and a user message present, leaves the count unchanged
and appends the instruction text to the content of the most recent user
message; with placement disabled and no user message, appends a new user
message holding only the instruction. -/
theorem json_mode_strategy_c7 (req : ChatCompletionRequest) (schema : Json) :
    (∀ out, JsonModeStrategy.apply ⟨true⟩ req schema = .ok out →
      out.response_format = some ResponseFormat.JsonObject
      ∧ out.messages.length = req.messages.length + 1
      ∧ ∃ instruction, build_json_instruction schema = .ok instruction
          ∧ out.messages =
            { role := Role.System,
              content := [ContentPart.Text instruction],
              name := none } :: req.messages)
    ∧ (∀ out, JsonModeStrategy.apply ⟨false⟩ req schema = .ok out →
      out.response_format = some ResponseFormat.JsonObject
      ∧ ((∃ m ∈ req.messages, m.role = Role.User) →
          out.messages.length = req.messages.length
          ∧ ∃ l1 u l2 instruction,
              build_json_instruction schema = .ok instruction
              ∧ req.messages = l1 ++ u :: l2
              ∧ u.role = Role.User
              ∧ (∀ x ∈ l2, x.role ≠ Role.User)
              ∧ out.messages = l1 ++ { u with content :=
                  u.content ++ [ContentPart.Text ("\n\n" ++ instruction)] } :: l2)
      ∧ ((∀ m ∈ req.messages, m.role ≠ Role.User) →
          ∃ instruction, build_json_instruction schema = .ok instruction
            ∧ out.messages = req.messages ++
                [{ role := Role.User, content := [ContentPart.Text instruction],
                   name := none }])) := by
  constructor
  · intro out hout
    simp only [JsonModeStrategy.apply, build_json_instruction, if_true,
      Except.ok.injEq] at hout
    subst hout
    exact ⟨rfl, by simp, _, rfl, rfl⟩
  · intro out hout
    simp only [JsonModeStrategy.apply, build_json_instruction,
      Bool.false_eq_true, if_false] at hout
    refine ⟨?_, ?_, ?_⟩
    · cases hcase : appendToLastUser
          ("You must respond with valid JSON that matches this schema:\n```json\n"
            ++ schema.toStringPretty
            ++ "\n```\n\nIMPORTANT:\n1. Only return the JSON object, nothing else\n2. Ensure all required fields are present\n3. Follow the schema structure exactly\n4. Use the correct data types for each field")
          req.messages with
        | none => rw [hcase] at hout; simp only [Except.ok.injEq] at hout; subst hout; rfl
        | some msgs => rw [hcase] at hout; simp only [Except.ok.injEq] at hout; subst hout; rfl
    · intro huser
      obtain ⟨l1, u, l2, heq, hu, hnone, happ⟩ :=
        appendToLastUser_some
          ("You must respond with valid JSON that matches this schema:\n```json\n"
            ++ schema.toStringPretty
            ++ "\n```\n\nIMPORTANT:\n1. Only return the JSON object, nothing else\n2. Ensure all required fields are present\n3. Follow the schema structure exactly\n4. Use the correct data types for each field")
          huser
      rw [happ] at hout
      simp only [Except.ok.injEq] at hout
      subst hout
      refine ⟨by simp [heq], l1, u, l2, _, rfl, heq, hu, hnone, by simp⟩
    · intro hnouser
      have hnone := appendToLastUser_none
        ("You must respond with valid JSON that matches this schema:\n```json\n"
          ++ schema.toStringPretty
          ++ "\n```\n\nIMPORTANT:\n1. Only return the JSON object, nothing else\n2. Ensure all required fields are present\n3. Follow the schema structure exactly\n4. Use the correct data types for each field")
        hnouser
      rw [hnone] at hout
      simp only [Except.ok.injEq] at hout
      subst hout
      exact ⟨_, rfl, by simp⟩

/-- Witness for C7 at a concrete one-user-message request and a concrete
schema: system placement yields two messages with the injected one first;
user-append placement keeps one message; no-user input gains an appended
user message. -/
theorem json_mode_strategy_c7_witness :
    outTrueW.response_format = some ResponseFormat.JsonObject
    ∧ outTrueW.messages.length = chatReqW.messages.length + 1
    ∧ outFalseW.messages.length = chatReqW.messages.length
    ∧ outNoUserW.response_format = some ResponseFormat.JsonObject := by
  refine ⟨?_, ?_, ?_, ?_⟩
  · exact ((json_mode_strategy_c7 chatReqW schemaW).1 outTrueW rfl).1
  · exact ((json_mode_strategy_c7 chatReqW schemaW).1 outTrueW rfl).2.1
  · exact (((json_mode_strategy_c7 chatReqW schemaW).2 outFalseW rfl).2.1
      ⟨msgUser, by simp [chatReqW], rfl⟩).1
  · exact (((json_mode_strategy_c7 chatReqNoUserW schemaW).2 outNoUserW rfl)).1

/-- C8: `generate_object` bypasses the plugin pipeline — its outcome does
not depend on the plugin engine at all — builds the completion request
with the response format unset, dispatches the request produced by the
output strategy, and parses the concatenated text of the first choice as JSON,
failing with a serialization error when parsing fails. -/
theorem generate_object_c8 :
    (∀ (ex1 ex2 : RuntimeExecutor) (parse_json : String → Except String Json)
        (model : String) (params : ObjectParams),
      ex1.provider = ex2.provider → ex1.json_strategy = ex2.json_strategy →
      ex1.generate_object parse_json model params
        = ex2.generate_object parse_json model params)
    ∧ (∀ model params, (buildObjectRequest model params).response_format = none)
    ∧ (∀ (ex : RuntimeExecutor) (parse_json : String → Except String Json)
        (model : String) (params : ObjectParams)
        (chat_req : ChatCompletionRequest) (response : ChatCompletionResponse)
        (first_choice : Choice) (rest : List Choice),
      ex.json_strategy (buildObjectRequest model params) params.schema = .ok chat_req →
      ex.provider chat_req = .ok response →
      response.choices = first_choice :: rest →
      (∀ obj, parse_json (textContent first_choice.message.content) = .ok obj →
        ex.generate_object parse_json model params
          = .ok { object := obj, usage := response.usage, model := response.model })
      ∧ (∀ e, parse_json (textContent first_choice.message.content) = .error e →
        ex.generate_object parse_json model params
          = .error (AiError.Serialization e))) := by
  refine ⟨?_, fun _ _ => rfl, ?_⟩
  · intro ex1 ex2 parse_json model params hprov hstrat
    cases ex1
    cases ex2
    simp only at hprov hstrat
    simp only [RuntimeExecutor.generate_object, hprov, hstrat]
  · intro ex parse_json model params chat_req response first_choice rest
      hstrat hprov hchoices
    constructor
    · intro obj hobj
      simp only [RuntimeExecutor.generate_object, hstrat, hprov, hchoices,
        List.head?, hobj]
    · intro e herr
      simp only [RuntimeExecutor.generate_object, hstrat, hprov, hchoices,
        List.head?, herr]

/-- Witness for C8 on a stub connector: a parser that succeeds yields the
parsed object with the usage and model of the stub; a parser that fails yields
a serialization error; swapping the plugin engine (for one containing a
failing plugin) leaves the outcome unchanged. -/
theorem generate_object_c8_witness :
    exTextW.generate_object parseOkW "m" objParamsW
      = .ok { object := Json.str "h", usage := usageW, model := "gpt-echo" }
    ∧ exTextW.generate_object parseFailW "m" objParamsW
      = .error (AiError.Serialization "nope")
    ∧ exTextW.generate_object parseOkW "m" objParamsW
      = exObj2W.generate_object parseOkW "m" objParamsW := by
  refine ⟨?_, ?_, ?_⟩
  · exact ((generate_object_c8.2.2 exTextW parseOkW "m" objParamsW
      (buildObjectRequest "m" objParamsW) respW choiceW [] rfl rfl rfl).1
      (Json.str "h") rfl)
  · exact ((generate_object_c8.2.2 exTextW parseFailW "m" objParamsW
      (buildObjectRequest "m" objParamsW) respW choiceW [] rfl rfl rfl).2
      "nope" rfl)
  · exact generate_object_c8.1 exTextW exObj2W parseOkW "m" objParamsW rfl rfl

end Aidale
